import Mathlib

/-!
Shallow embedding of the retlock reentrant-lock library
(src/include/retlock/retlock.hpp, retlock_sameline.hpp, retlock_no_opt.hpp,
retlock_queue.hpp) and proofs about its lock algorithms.

Modelling conventions, used throughout:
* Sequential interleaving semantics: one thread runs one complete operation
  at a time with no interference, so a compare-exchange whose expected value
  was loaded inside the same call succeeds deterministically.
* A failed C `assert` is modelled as `Option.none` (the call does not return
  normally).  A call that can only keep spinning (no other thread acts during
  a call in this semantics) likewise does not return.
* Machine integers are modelled as `Nat` holding the field's value, with an
  explicit `% 2 ^ w` wherever the source arithmetic can wrap (uint32 counters,
  size_t increments); a decrement that is guarded by an assertion that the
  value is positive cannot wrap and is plain subtraction.
-/

set_option maxRecDepth 4096

namespace Retlock

namespace ReTLockImpl

/-- Packed lock word of the split-cache-line variant `ReTLockImpl`
(retlock.hpp lines 98-106): bit fields `owner_tid : 32`, `lockbits : 1`,
`recursive_count_metric : 31`, each modelled as the `Nat` value it holds. -/
structure Container where
  owner_tid : Nat
  lockbits : Nat
  recursive_count_metric : Nat
deriving DecidableEq

/-- Constant LOCKED (retlock.hpp line 31). -/
def LOCKED : Nat := 1

/-- Constant UNLOCKED (retlock.hpp line 32). -/
def UNLOCKED : Nat := 0

/-- State of one `ReTLockImpl` object (retlock.hpp lines 111-113): the atomic
packed word `lock_` plus the members `counter_` (the holder's recursion
depth) and `counter_max_`, both `size_t`. -/
structure State where
  lock_ : Container
  counter_ : Nat
  counter_max_ : Nat
deriving DecidableEq

/-- Freshly constructed lock (retlock.hpp line 27): `lock_()` zero-initialises
the container, `counter_(0)`, `counter_max_(0)`. -/
def init : State := ⟨⟨0, 0, 0⟩, 0, 0⟩

/-- ReTLockImpl::try_lock (retlock.hpp lines 56-81) in the sequential
semantics.  `adaptive` is true for the `SleepType::Adaptive` instantiation,
whose only state-transition difference is the `counter_max_` update on
reentry (line 66); the thread-local `getLocalLockCache` write (lines 58-61)
touches no lock state and is not modelled.  The `compare_exchange_weak` on
line 75 succeeds here because `current` was loaded in the same call and
nothing intervenes.  `none` models a failed `assert`. -/
def try_lock (adaptive : Bool) (tid : Nat) (s : State) : Option (Bool × State) :=
  let current := s.lock_
  if current.owner_tid = tid then
    if s.counter_ = 0 then none
    else
      let c := (s.counter_ + 1) % 2 ^ 64
      some (true, { s with
        counter_ := c
        counter_max_ := if adaptive then max s.counter_max_ c else s.counter_max_ })
  else if current.lockbits = LOCKED then
    some (false, s)
  else if current.owner_tid ≠ 0 then none
  else
    let desired : Container := ⟨tid, LOCKED, current.recursive_count_metric⟩
    if s.counter_ ≠ 0 then none
    else some (true, { s with lock_ := desired, counter_ := (s.counter_ + 1) % 2 ^ 64 })

/-- ReTLockImpl::unlock (retlock.hpp lines 83-94) in the sequential
semantics.  The asserts on lines 86-87 are the `none` cases; the decrement
cannot wrap because `0 < counter_` was asserted.  At the final release the
source stores the literal `Container{0, UNLOCKED, 0}` (line 93). -/
def unlock (tid : Nat) (s : State) : Option State :=
  let current := s.lock_
  if current.owner_tid ≠ tid then none
  else if s.counter_ = 0 then none
  else
    let c := s.counter_ - 1
    if 0 < c then some { s with counter_ := c }
    else some { s with counter_ := c, lock_ := ⟨0, UNLOCKED, 0⟩ }

/-- ReTLockImpl::lock (retlock.hpp lines 34-54): loops on try_lock with a
backoff that does not change lock state.  In the sequential semantics a
failed try_lock keeps failing (no other thread acts during the call), so the
call returns exactly when the first try_lock succeeds, and otherwise never
returns (`none`). -/
def lock (adaptive : Bool) (tid : Nat) (s : State) : Option State :=
  match try_lock adaptive tid s with
  | some (true, s') => some s'
  | _ => none

/-- One operation of a sequential schedule on a split-line lock. -/
inductive Op
  | lockOp (tid : Nat)
  | unlockOp (tid : Nat)

/-- Run a sequential schedule; `none` as soon as one call fails an assertion
or never returns. -/
def run (adaptive : Bool) : List Op → State → Option State
  | [], s => some s
  | Op.lockOp t :: rest, s =>
    match lock adaptive t s with
    | some s' => run adaptive rest s'
    | none => none
  | Op.unlockOp t :: rest, s =>
    match unlock t s with
    | some s' => run adaptive rest s'
    | none => none

end ReTLockImpl

namespace ReTLockSameLineImpl

/-- Packed word of the same-cache-line variant `ReTLockSameLineImpl`
(retlock_sameline.hpp lines 101-105): plain `uint32_t` fields `owner_tid`
and `counter`. -/
structure SameCacheLineContainer where
  owner_tid : Nat
  counter : Nat
deriving DecidableEq

/-- ReTLockSameLineImpl::try_lock (retlock_sameline.hpp lines 63-86) in the
sequential semantics.  The Adaptive template's thread-local cache write
(lines 65-68) touches no lock state.  Reentry performs a plain store of
`counter + 1` (uint32, wraps modulo 2^32).  The assert on line 77 is implied
by the preceding branch; the assert on line 78 is the `none` case.  The
`compare_exchange_weak` on line 84 succeeds here because `current` was
loaded in the same call. -/
def try_lock (tid : Nat) (c : SameCacheLineContainer) :
    Option (Bool × SameCacheLineContainer) :=
  if c.owner_tid = tid then
    some (true, ⟨c.owner_tid, (c.counter + 1) % 2 ^ 32⟩)
  else if 0 < c.counter then
    some (false, c)
  else if c.owner_tid ≠ 0 then none
  else
    some (true, ⟨tid, 1⟩)

/-- ReTLockSameLineImpl::unlock (retlock_sameline.hpp lines 88-97) in the
sequential semantics.  Only ownership is asserted (line 90); there is no
counter assertion, and the uint32 decrement wraps modulo 2^32.  `owner_tid`
is cleared exactly when the decremented counter is 0 (lines 93-95). -/
def unlock (tid : Nat) (c : SameCacheLineContainer) :
    Option SameCacheLineContainer :=
  if c.owner_tid ≠ tid then none
  else
    let k := (c.counter + (2 ^ 32 - 1)) % 2 ^ 32
    some (if k = 0 then ⟨0, k⟩ else ⟨c.owner_tid, k⟩)

end ReTLockSameLineImpl

namespace ReTLockNoOpt

/-- ReTLockNoOpt::Container (retlock_no_opt.hpp lines 66-70): the same
`uint32_t owner_tid` / `uint32_t counter` packed word as the same-line
variant's container. -/
structure Container where
  owner_tid : Nat
  counter : Nat
deriving DecidableEq

/-- ReTLockNoOpt::try_lock (retlock_no_opt.hpp lines 44-63) in the
sequential semantics: reentry stores `counter + 1` (uint32); a positive
counter under another owner fails without a store; otherwise (owner
asserted 0 on line 55, the `none` case) the compare_exchange_weak on
line 61 installs `{tid, 1}` and succeeds here. -/
def try_lock (tid : Nat) (c : Container) : Option (Bool × Container) :=
  if c.owner_tid = tid then
    some (true, ⟨c.owner_tid, (c.counter + 1) % 2 ^ 32⟩)
  else if 0 < c.counter then
    some (false, c)
  else if c.owner_tid ≠ 0 then none
  else
    some (true, ⟨tid, 1⟩)

/-- ReTLockNoOpt::unlock (retlock_no_opt.hpp lines 33-42) in the sequential
semantics: ownership asserted (line 35), uint32 decrement by store, owner
cleared exactly when the decremented counter is 0 (lines 38-40). -/
def unlock (tid : Nat) (c : Container) : Option Container :=
  if c.owner_tid ≠ tid then none
  else
    let k := (c.counter + (2 ^ 32 - 1)) % 2 ^ 32
    some (if k = 0 then ⟨0, k⟩ else ⟨c.owner_tid, k⟩)

end ReTLockNoOpt

namespace ReTLockQueueImpl

/-- Per-thread queue node of `ReTLockQueueImpl` (retlock_queue.hpp lines
124-130).  `next_` holds the successor thread's identity (each thread has
exactly one thread-local node, so nodes are named by their thread), `lock_`
the `atomic<bool>` reentrancy flag, `waiting_` the `atomic<bool>` wait flag
modelled as the numeric value it stores (`store(false)` writes 0,
`store(true)` writes 1; the specification reads integer values out of this
field, so the model keeps the numeric encoding), and `counter_` the
`size_t` recursion depth. -/
structure QNode where
  next_ : Option Nat
  lock_ : Bool
  waiting_ : Nat
  counter_ : Nat
deriving DecidableEq

/-- QNode constructor (retlock_queue.hpp line 129): next_(nullptr),
lock_(UNLOCKED), waiting_(false), counter_(0). -/
def QNode.ctor : QNode := ⟨none, false, 0, 0⟩

/-- Whole-lock state of the queue variant: the atomic `tail_` pointer
(retlock_queue.hpp line 132), holding the identity of the enqueued thread or
`none` for nullptr, together with every thread's thread-local node
(getMyQNode, lines 136-139). -/
structure State where
  tail_ : Option Nat
  nodes : Nat → QNode

/-- Replace thread `t`'s node. -/
def updNode (s : State) (t : Nat) (n : QNode) : State :=
  { s with nodes := fun x => if x = t then n else s.nodes x }

/-- Freshly constructed lock (retlock_queue.hpp line 24) with every thread's
node still in its constructed state. -/
def init : State := ⟨none, fun _ => QNode.ctor⟩

/-- Result of one queue-variant try_lock call in the sequential semantics:
the call returns a Bool in a new state, or it never returns because it
entered the enqueue-and-spin path (retlock_queue.hpp lines 81-118) and no
other thread will clear its `waiting_` flag during the call. -/
inductive Res
  | ret (b : Bool) (s : State)
  | noReturn

/-- ReTLockQueueImpl::try_lock (retlock_queue.hpp lines 47-119) in the
sequential semantics.  The `AdaptiveSleep` template parameter only changes
how the spin loop sleeps and a thread-local metric (lines 98-116), never a
lock-state transition, so it is not a parameter here.  On the non-waiting
failure paths (lines 69-72 and 76-79) the source executes
`my_node = new (&my_node) QNode();`, a placement-new at the address of the
local pointer variable `my_node` rather than at the node it points to, so
the thread's queue node itself keeps exactly what the set-up on lines 55-58
wrote into it; the model reflects that (the clobbered local variable is dead
afterwards).  The tail compare_exchange on line 65 succeeds whenever reached
here, because `tail_` was just loaded as null and nothing intervenes. -/
def try_lock (wait : Bool) (tid : Nat) (s : State) : Res :=
  let node := s.nodes tid
  if node.lock_ then
    Res.ret true (updNode s tid { node with counter_ := (node.counter_ + 1) % 2 ^ 64 })
  else
    let s1 := updNode s tid ⟨none, true, 1, 1⟩
    match s1.tail_ with
    | none => Res.ret true { s1 with tail_ := some tid }
    | some _ => if wait then Res.noReturn else Res.ret false s1

/-- ReTLockQueueImpl::unlock (retlock_queue.hpp lines 33-45) in the
sequential semantics; `none` models a failed assert (lines 35-36), and the
guarded `size_t` decrement cannot wrap.  Note that the source never touches
`tail_` here: at the final release it stores UNLOCKED into the node's
`lock_`, loads `next_`, returns if that is null, and otherwise stores false
(0) into the successor's `waiting_`. -/
def unlock (tid : Nat) (s : State) : Option State :=
  let node := s.nodes tid
  if node.lock_ = false then none
  else if node.counter_ = 0 then none
  else
    let c := node.counter_ - 1
    if 0 < c then some (updNode s tid { node with counter_ := c })
    else
      let s1 := updNode s tid { node with counter_ := c, lock_ := false }
      match (s1.nodes tid).next_ with
      | none => some s1
      | some nxt => some (updNode s1 nxt { s1.nodes nxt with waiting_ := 0 })

/-- One operation of a sequential schedule on a queue lock: a
`try_lock(wait)` call (ReTLockQueueImpl::lock is `try_lock(true)`,
retlock_queue.hpp line 31) or an `unlock` call. -/
inductive Op
  | tl (wait : Bool) (tid : Nat)
  | ul (tid : Nat)

/-- Run a sequential schedule, collecting every try_lock return value;
`none` as soon as one call fails an assertion or never returns. -/
def run : List Op → State → Option (List Bool × State)
  | [], s => some ([], s)
  | Op.tl w t :: rest, s =>
    match try_lock w t s with
    | Res.ret b s' =>
      match run rest s' with
      | some (bs, sf) => some (b :: bs, sf)
      | none => none
    | Res.noReturn => none
  | Op.ul t :: rest, s =>
    match unlock t s with
    | some s' => run rest s'
    | none => none

end ReTLockQueueImpl

/-- Thread identity service shared in shape by ReTLockImpl,
ReTLockSameLineImpl and ReTLockNoOpt: a process-wide atomic `uint32_t`
allocator plus one thread-local cached slot per OS thread (getThreadId,
retlock.hpp lines 117-120, retlock_sameline.hpp lines 115-118,
retlock_no_opt.hpp lines 76-79).  `allocator` is the allocator's current
value, `cache` maps an OS thread to its cached identity, if any. -/
structure TidService where
  allocator : Nat
  cache : Nat → Option Nat

/-- getThreadId called by OS thread `t`: on the thread's first call,
`fetch_add(1)` on the allocator returns the prior uint32 value, which is
cached thread-locally and returned; every later call returns the cache. -/
def getThreadId (t : Nat) (s : TidService) : Nat × TidService :=
  match s.cache t with
  | some v => (v, s)
  | none =>
    (s.allocator % 2 ^ 32,
     ⟨(s.allocator + 1) % 2 ^ 32,
      fun x => if x = t then some (s.allocator % 2 ^ 32) else s.cache x⟩)

/-- Allocator initialiser of the split-line variants (retlock.hpp lines
139-142): every `ReTLockImpl` instantiation starts its
`thread_id_allocator_` at 1. -/
def ReTLockImpl.tidAllocatorInit : Nat := 1

/-- Allocator initialiser of the same-line variants (retlock_sameline.hpp
lines 136-139): starts at 1. -/
def ReTLockSameLineImpl.tidAllocatorInit : Nat := 1

/-- Allocator initialiser of ReTLockNoOpt (retlock_no_opt.hpp line 87):
starts at 1. -/
def ReTLockNoOpt.tidAllocatorInit : Nat := 1

/-- Allocator initialiser of the queue variants (retlock_queue.hpp lines
149-150): both `ReTLockQueueAFS` and `ReTLockQueue` initialise
`thread_id_allocator_` to 0, unlike every spin variant, and the queue class
contains no getThreadId that would consume it. -/
def ReTLockQueueImpl.tidAllocatorInit : Nat := 0

/-- Run a sequence of getThreadId calls (identified by OS thread) against a
service state, returning the final service state. -/
def allocRun (ts : List Nat) (s : TidService) : TidService :=
  ts.foldl (fun acc t => (getThreadId t acc).2) s

/-! Theorems about the claims. -/

/-- C1: in the queue variant, run the claimed two-thread interleaving
sequentially: T1 (thread 1) lock, lock; T2 (thread 2) try_lock; T1 unlock;
T2 try_lock.  The collected try_lock results are
[true, true, false, true]: T2's second try_lock returns TRUE even though
T1 has acquired twice and released once, because T2's failed first try_lock
left T2's own node marked locked (the reset constructs a QNode over the
local pointer variable, not over the node).  The claim requires false
there, so the code violates the claimed reentrant-exclusion scenario. -/
theorem c1_queue_second_trylock_returns_true :
    (ReTLockQueueImpl.run
        [ReTLockQueueImpl.Op.tl true 1, ReTLockQueueImpl.Op.tl true 1,
         ReTLockQueueImpl.Op.tl false 2, ReTLockQueueImpl.Op.ul 1,
         ReTLockQueueImpl.Op.tl false 2]
        ReTLockQueueImpl.init).map Prod.fst
      = some [true, true, false, true] := rfl

/-- C2: in the queue variant, after T1 (thread 1) acquires a fresh lock and
performs the final release with `next_` null, `tail_` still points at T1's
node: unlock contains no compare-exchange of `tail_` to null at all, so the
queue is not emptied as the claim states. -/
theorem c2_queue_unlock_leaves_tail_nonnull :
    (ReTLockQueueImpl.run
        [ReTLockQueueImpl.Op.tl true 1, ReTLockQueueImpl.Op.ul 1]
        ReTLockQueueImpl.init).map (fun r => r.2.tail_)
      = some (some 1)
    ∧ (some 1 : Option Nat) ≠ none := ⟨rfl, by decide⟩

/-- C4: in the queue variant, a failed non-blocking try_lock by thread 2
(while thread 1 holds the lock) leaves thread 2's node with
lock_ = true, waiting_ = 1, counter_ = 1 — not the constructed state
(lock_ = false, waiting_ = 0, counter_ = 0) the claim requires: the
`new (&my_node) QNode()` reset constructs a node over the local pointer
variable instead of resetting the thread's node. -/
theorem c4_queue_failed_trylock_leaves_node_marked :
    (ReTLockQueueImpl.run
        [ReTLockQueueImpl.Op.tl true 1, ReTLockQueueImpl.Op.tl false 2]
        ReTLockQueueImpl.init).map
        (fun r => (r.1, (r.2.nodes 2).lock_, (r.2.nodes 2).waiting_,
          (r.2.nodes 2).counter_, (r.2.nodes 2).next_))
      = some ([true, false], true, 1, 1, none)
    ∧ (ReTLockQueueImpl.QNode.ctor.lock_, ReTLockQueueImpl.QNode.ctor.waiting_,
        ReTLockQueueImpl.QNode.ctor.counter_, ReTLockQueueImpl.QNode.ctor.next_)
      = (false, 0, 0, (none : Option Nat)) := ⟨rfl, rfl⟩

/-- C6: in the queue variant, after thread 1 performs lock, lock, lock,
unlock, unlock, unlock on a fresh lock, the lock is not back in the free
state: `tail_` still names thread 1's node and a subsequent try_lock by
thread 2 returns false, whereas on a freshly constructed lock the same
try_lock by thread 2 returns true. -/
theorem c6_queue_not_free_after_balanced_release :
    (ReTLockQueueImpl.run
        [ReTLockQueueImpl.Op.tl true 1, ReTLockQueueImpl.Op.tl true 1,
         ReTLockQueueImpl.Op.tl true 1, ReTLockQueueImpl.Op.ul 1,
         ReTLockQueueImpl.Op.ul 1, ReTLockQueueImpl.Op.ul 1,
         ReTLockQueueImpl.Op.tl false 2]
        ReTLockQueueImpl.init).map (fun r => (r.1, r.2.tail_))
      = some ([true, true, true, false], some 1)
    ∧ (ReTLockQueueImpl.run [ReTLockQueueImpl.Op.tl false 2]
        ReTLockQueueImpl.init).map Prod.fst
      = some [true] := ⟨rfl, rfl⟩

/-- C3, counterexample: in the adaptive split-line variant, thread 1 enters
nesting depth 8 and then fully releases.  `counter_max_` did reach 8, so the
claimed update `prior_metric + counter_max/2` would publish 4, but the final
release stores the literal packed word {0, UNLOCKED, 0}: the
recursion_metric a subsequent waiter reads is 0, not at least 4. -/
theorem c3_metric_is_zero_after_depth8_release :
    (ReTLockImpl.run true
        (List.replicate 8 (ReTLockImpl.Op.lockOp 1)
          ++ List.replicate 8 (ReTLockImpl.Op.unlockOp 1))
        ReTLockImpl.init).map
        (fun s => (s.lock_.recursive_count_metric, s.counter_max_,
          s.lock_.owner_tid, s.lock_.lockbits))
      = some (0, 8, 0, 0)
    ∧ ¬ (4 : Nat) ≤ 0 := ⟨rfl, by decide⟩

/-- C3, amended: whenever the split-line unlock performs the final release
(the stored recursion counter reaches 0), the packed word it stores has
owner_tid = 0, lockbits = UNLOCKED and recursion_metric = 0; the
`counter_max_` maintained by try_lock is never incorporated, so the metric
a subsequent waiter observes after any release is 0. -/
theorem c3_final_release_stores_zero_metric (tid : Nat)
    (s s' : ReTLockImpl.State) (h : ReTLockImpl.unlock tid s = some s')
    (h0 : s'.counter_ = 0) :
    s'.lock_ = ReTLockImpl.Container.mk 0 ReTLockImpl.UNLOCKED 0 := by
  by_cases h1 : s.lock_.owner_tid ≠ tid
  · simp [ReTLockImpl.unlock, h1] at h
  · by_cases h2 : s.counter_ = 0
    · simp [ReTLockImpl.unlock, h1, h2] at h
    · by_cases h3 : 0 < s.counter_ - 1
      · simp [ReTLockImpl.unlock, h1, h2, h3] at h
        rw [← h] at h0
        simp at h0
        omega
      · simp [ReTLockImpl.unlock, h1, h2, h3] at h
        rw [← h]

/-- C3, witness for the amended theorem at a concrete final release:
unlock by thread 1 from the held state {owner 1, locked, metric 7} with
counter 1 stores the all-zero word. -/
theorem c3_final_release_stores_zero_metric_witness :
    (ReTLockImpl.State.mk (ReTLockImpl.Container.mk 0 ReTLockImpl.UNLOCKED 0) 0 5).lock_
      = ReTLockImpl.Container.mk 0 ReTLockImpl.UNLOCKED 0 :=
  c3_final_release_stores_zero_metric 1
    (ReTLockImpl.State.mk (ReTLockImpl.Container.mk 1 1 7) 1 5)
    (ReTLockImpl.State.mk (ReTLockImpl.Container.mk 0 ReTLockImpl.UNLOCKED 0) 0 5)
    rfl rfl

/-- A concrete queue-lock state for claim C5: thread 1 holds the lock at
recursion depth 3 and thread 2 is enqueued behind it (thread 2's node was
set up by its blocked lock() call: lock_ = true, waiting_ = 1,
counter_ = 1, linked as node 1's successor). -/
def c5state : ReTLockQueueImpl.State :=
  ⟨some 2, fun t =>
    if t = 1 then ⟨some 2, true, 0, 3⟩
    else if t = 2 then ⟨none, true, 1, 1⟩
    else ReTLockQueueImpl.QNode.ctor⟩

/-- C5, counterexample: from `c5state`, thread 1's unlock decrements its
counter from 3 to 2 — still positive — and the claim says the decremented
counter 2 is stored into the successor's waiting field.  The code returns
without writing the successor's node at all: thread 2's waiting_ stays at
its prior value 1, and 1 is not 2.  (The `waiting_` flag is an
`atomic<bool>`; only 0 and 1 are ever stored into it.) -/
theorem c5_unlock_does_not_store_counter_into_successor :
    (ReTLockQueueImpl.unlock 1 c5state).map
        (fun s => ((s.nodes 1).counter_, (s.nodes 2).waiting_))
      = some (2, 1)
    ∧ (c5state.nodes 2).waiting_ = 1
    ∧ (1 : Nat) ≠ 2 := ⟨rfl, rfl, by decide⟩

/-- C5, amended: in both queue variants (the adaptive template parameter
does not change unlock), an unlock whose decremented counter is still
positive only decrements the holder's own counter — it leaves `tail_` and
every other thread's node, in particular any successor's `waiting_`,
untouched; and when the decremented counter is 0 and a successor is linked,
the successor's `waiting_` is stored 0 (false), which is the only handoff
write.  `waiting_` is a boolean flag (1 = wait, 0 = proceed) and never
encodes a recursion depth. -/
theorem c5_unlock_behaviour (tid : Nat) (st st' : ReTLockQueueImpl.State)
    (h : ReTLockQueueImpl.unlock tid st = some st') :
    (0 < (st.nodes tid).counter_ - 1 →
      st'.tail_ = st.tail_
      ∧ (∀ t, t ≠ tid → st'.nodes t = st.nodes t)
      ∧ st'.nodes tid
          = { st.nodes tid with counter_ := (st.nodes tid).counter_ - 1 })
    ∧ ((st.nodes tid).counter_ - 1 = 0 →
      ∀ nxt, (st.nodes tid).next_ = some nxt → (st'.nodes nxt).waiting_ = 0) := by
  by_cases h1 : (st.nodes tid).lock_ = false
  · simp [ReTLockQueueImpl.unlock, h1] at h
  · by_cases h2 : (st.nodes tid).counter_ = 0
    · simp [ReTLockQueueImpl.unlock, h1, h2] at h
    · by_cases h3 : 0 < (st.nodes tid).counter_ - 1
      · simp [ReTLockQueueImpl.unlock, h1, h2, h3] at h
        refine ⟨fun _ => ?_, fun hz => absurd hz (by omega)⟩
        rw [← h]
        refine ⟨rfl, fun t ht => ?_, ?_⟩
        · simp [ReTLockQueueImpl.updNode, ht]
        · simp [ReTLockQueueImpl.updNode]
          simpa using h1
      · refine ⟨fun hp => absurd hp h3, fun _ nxt hnxt => ?_⟩
        rcases hmatch : (st.nodes tid).next_ with _ | nxt2
        · rw [hmatch] at hnxt; cases hnxt
        · rw [hmatch] at hnxt
          cases hnxt
          simp [ReTLockQueueImpl.unlock, h1, h2, h3, ReTLockQueueImpl.updNode,
            hmatch] at h
          rw [← h]
          simp [ReTLockQueueImpl.updNode]

/-- C5, witness for the amended theorem at the concrete state `c5state`:
thread 1's unlock from depth 3 leaves `tail_` unchanged (`some 2`). -/
theorem c5_unlock_behaviour_witness :
    (ReTLockQueueImpl.updNode c5state 1
        (ReTLockQueueImpl.QNode.mk (some 2) true 0 2)).tail_
      = c5state.tail_ :=
  ((c5_unlock_behaviour 1 c5state
      (ReTLockQueueImpl.updNode c5state 1
        (ReTLockQueueImpl.QNode.mk (some 2) true 0 2))
      rfl).1 (by decide)).1

/-- C7: for the split-line and the same-line spin variants, whenever
try_lock returns false (in this interference-free semantics), the packed
atomic lock word after the call equals the word before it: a failed
try_lock performs no write to the atomic state. -/
theorem c7_failed_trylock_preserves_packed_state :
    (∀ (adaptive : Bool) (tid : Nat) (s : ReTLockImpl.State)
        (r : Bool × ReTLockImpl.State),
      ReTLockImpl.try_lock adaptive tid s = some r → r.1 = false →
        r.2.lock_ = s.lock_)
    ∧ (∀ (tid : Nat) (c : ReTLockSameLineImpl.SameCacheLineContainer)
        (r : Bool × ReTLockSameLineImpl.SameCacheLineContainer),
      ReTLockSameLineImpl.try_lock tid c = some r → r.1 = false → r.2 = c) := by
  constructor
  · intro adaptive tid s r h hf
    by_cases h1 : s.lock_.owner_tid = tid
    · by_cases h2 : s.counter_ = 0
      · simp [ReTLockImpl.try_lock, h1, h2] at h
      · simp [ReTLockImpl.try_lock, h1, h2] at h
        rw [← h] at hf
        cases hf
    · by_cases h3 : s.lock_.lockbits = ReTLockImpl.LOCKED
      · simp [ReTLockImpl.try_lock, h1, h3] at h
        rw [← h]
      · by_cases h4 : s.lock_.owner_tid ≠ 0
        · simp [ReTLockImpl.try_lock, h1, h3, h4] at h
        · by_cases h5 : s.counter_ ≠ 0
          · simp [ReTLockImpl.try_lock, h1, h3, h4, h5] at h
          · simp [ReTLockImpl.try_lock, h1, h3, h4, h5] at h
            rw [← h] at hf
            cases hf
  · intro tid c r h hf
    by_cases h1 : c.owner_tid = tid
    · simp [ReTLockSameLineImpl.try_lock, h1] at h
      rw [← h] at hf
      cases hf
    · by_cases h2 : 0 < c.counter
      · simp [ReTLockSameLineImpl.try_lock, h1, h2] at h
        rw [← h]
      · by_cases h3 : c.owner_tid ≠ 0
        · simp [ReTLockSameLineImpl.try_lock, h1, h2, h3] at h
        · simp [ReTLockSameLineImpl.try_lock, h1, h2, h3] at h
          rw [← h] at hf
          cases hf

/-- C7, witness at concrete failing calls: thread 2's try_lock against the
split-line word {owner 5, locked, metric 0} (counter 3) and against the
same-line word {owner 5, counter 3} both return false and change nothing. -/
theorem c7_failed_trylock_preserves_packed_state_witness :
    ((false, ReTLockImpl.State.mk (ReTLockImpl.Container.mk 5 1 0) 3 0) :
        Bool × ReTLockImpl.State).2.lock_
      = (ReTLockImpl.State.mk (ReTLockImpl.Container.mk 5 1 0) 3 0).lock_
    ∧ ((false, ReTLockSameLineImpl.SameCacheLineContainer.mk 5 3) :
        Bool × ReTLockSameLineImpl.SameCacheLineContainer).2
      = ReTLockSameLineImpl.SameCacheLineContainer.mk 5 3 :=
  ⟨c7_failed_trylock_preserves_packed_state.1 false 2
      (ReTLockImpl.State.mk (ReTLockImpl.Container.mk 5 1 0) 3 0)
      (false, ReTLockImpl.State.mk (ReTLockImpl.Container.mk 5 1 0) 3 0) rfl rfl,
    c7_failed_trylock_preserves_packed_state.2 2
      (ReTLockSameLineImpl.SameCacheLineContainer.mk 5 3)
      (false, ReTLockSameLineImpl.SameCacheLineContainer.mk 5 3) rfl rfl⟩

/-- C8: same-line packed-state transitions, for every starting word and
caller: a reentrant try_lock (owner equals caller) stores counter + 1
(uint32) leaving the owner unchanged and returns true; an unlock that
returns was called by the owner, stores counter - 1 (uint32, by wrapping
store), and clears owner_tid to 0 exactly when the decremented counter is
0; and an initial acquisition (caller is not the owner) succeeds only by
the compare-exchange from {owner 0, counter 0} to {caller, 1}. -/
theorem c8_sameline_transitions (tid : Nat)
    (c : ReTLockSameLineImpl.SameCacheLineContainer) :
    (c.owner_tid = tid →
      ReTLockSameLineImpl.try_lock tid c
        = some (true, ⟨c.owner_tid, (c.counter + 1) % 2 ^ 32⟩))
    ∧ (∀ c', ReTLockSameLineImpl.unlock tid c = some c' →
      c.owner_tid = tid
      ∧ c'.counter = (c.counter + (2 ^ 32 - 1)) % 2 ^ 32
      ∧ c'.owner_tid = (if c'.counter = 0 then 0 else c.owner_tid))
    ∧ (∀ b c', ReTLockSameLineImpl.try_lock tid c = some (b, c') → b = true →
      c.owner_tid ≠ tid → c = ⟨0, 0⟩ ∧ c' = ⟨tid, 1⟩) := by
  refine ⟨fun h1 => by simp [ReTLockSameLineImpl.try_lock, h1], ?_, ?_⟩
  · intro c' h
    by_cases h1 : c.owner_tid ≠ tid
    · simp [ReTLockSameLineImpl.unlock, h1] at h
    · push_neg at h1
      simp [ReTLockSameLineImpl.unlock, h1] at h
      rw [← h]
      refine ⟨h1, ?_, ?_⟩ <;> split_ifs <;> simp_all
  · intro b c' h hb h1
    subst hb
    by_cases h2 : 0 < c.counter
    · simp [ReTLockSameLineImpl.try_lock, h1, h2] at h
    · by_cases h3 : c.owner_tid ≠ 0
      · simp [ReTLockSameLineImpl.try_lock, h1, h2, h3] at h
      · push_neg at h3
        have h4 : ¬ ((0 : Nat) = tid) := fun hh => h1 (h3.trans hh)
        simp [ReTLockSameLineImpl.try_lock, h1, h2, h3, h4] at h
        refine ⟨?_, h.symm⟩
        cases c with
        | mk o k =>
          simp only [ReTLockSameLineImpl.SameCacheLineContainer.mk.injEq]
          constructor
          · exact h3
          · have h2' : ¬ 0 < k := h2
            omega

/-- C8, witness at concrete inputs: a reentrant try_lock by owner 7 from
{7, 3} yields {7, 4}; an unlock by owner 7 from {7, 3} yields counter 2
with owner kept; an initial acquisition by thread 9 succeeds from {0, 0}
producing {9, 1}. -/
theorem c8_sameline_transitions_witness :
    ReTLockSameLineImpl.try_lock 7
        (ReTLockSameLineImpl.SameCacheLineContainer.mk 7 3)
      = some (true, ReTLockSameLineImpl.SameCacheLineContainer.mk 7 4)
    ∧ ((7 : Nat) = 7
      ∧ (ReTLockSameLineImpl.SameCacheLineContainer.mk 7 2).counter
          = (3 + (2 ^ 32 - 1)) % 2 ^ 32
      ∧ (ReTLockSameLineImpl.SameCacheLineContainer.mk 7 2).owner_tid
          = (if (ReTLockSameLineImpl.SameCacheLineContainer.mk 7 2).counter = 0
              then 0 else 7))
    ∧ (ReTLockSameLineImpl.SameCacheLineContainer.mk 0 0
        = ReTLockSameLineImpl.SameCacheLineContainer.mk 0 0
      ∧ ReTLockSameLineImpl.SameCacheLineContainer.mk 9 1
        = ReTLockSameLineImpl.SameCacheLineContainer.mk 9 1) :=
  ⟨(c8_sameline_transitions 7
        (ReTLockSameLineImpl.SameCacheLineContainer.mk 7 3)).1 rfl,
    (c8_sameline_transitions 7
        (ReTLockSameLineImpl.SameCacheLineContainer.mk 7 3)).2.1
      (ReTLockSameLineImpl.SameCacheLineContainer.mk 7 2) (by decide),
    (c8_sameline_transitions 9
        (ReTLockSameLineImpl.SameCacheLineContainer.mk 0 0)).2.2 true
      (ReTLockSameLineImpl.SameCacheLineContainer.mk 9 1) rfl rfl (by decide)⟩

/-- C10: ReTLockNoOpt and ReTLockSameLineImpl implement the same
state-transition functions: on every packed word {owner, counter} and
caller identity, their try_lock calls return the same boolean and produce
the same resulting word, and their unlock calls produce the same resulting
word (compared component-wise across the two container types). -/
theorem c10_noopt_equals_sameline (tid o c : Nat) :
    (ReTLockNoOpt.try_lock tid ⟨o, c⟩).map
        (fun r => (r.1, r.2.owner_tid, r.2.counter))
      = (ReTLockSameLineImpl.try_lock tid ⟨o, c⟩).map
        (fun r => (r.1, r.2.owner_tid, r.2.counter))
    ∧ (ReTLockNoOpt.unlock tid ⟨o, c⟩).map (fun s => (s.owner_tid, s.counter))
      = (ReTLockSameLineImpl.unlock tid ⟨o, c⟩).map
        (fun s => (s.owner_tid, s.counter)) := by
  constructor
  · by_cases h1 : o = tid
    · simp [ReTLockNoOpt.try_lock, ReTLockSameLineImpl.try_lock, h1]
    · by_cases h2 : 0 < c
      · simp [ReTLockNoOpt.try_lock, ReTLockSameLineImpl.try_lock, h1, h2]
      · by_cases h3 : o ≠ 0
        · simp [ReTLockNoOpt.try_lock, ReTLockSameLineImpl.try_lock, h1, h2, h3]
        · simp [ReTLockNoOpt.try_lock, ReTLockSameLineImpl.try_lock, h1, h2, h3]
  · by_cases h1 : o ≠ tid
    · simp [ReTLockNoOpt.unlock, ReTLockSameLineImpl.unlock, h1]
    · simp [ReTLockNoOpt.unlock, ReTLockSameLineImpl.unlock, h1]
      constructor <;> split_ifs <;> rfl

/-- Invariant of the spin variants' identity service after some first-calls
against an allocator that started at 1: the allocator value is at least 1
and at most `n`, and every cached identity lies strictly between 0 and the
allocator value. -/
def TidService.Inv (n : Nat) (s : TidService) : Prop :=
  1 ≤ s.allocator ∧ s.allocator ≤ n
    ∧ ∀ t v, s.cache t = some v → 1 ≤ v ∧ v < s.allocator

/-- One getThreadId call preserves the identity-service invariant (with the
bound grown by one) and issues a non-zero identity, as long as the
operating envelope keeps the allocator below the uint32 wrap. -/
theorem TidService.Inv.step {n : Nat} {s : TidService} (t : Nat)
    (h : TidService.Inv n s) (hn : n + 1 < 2 ^ 32) :
    1 ≤ (getThreadId t s).1 ∧ TidService.Inv (n + 1) (getThreadId t s).2 := by
  obtain ⟨h1, h2, h3⟩ := h
  rcases hc : s.cache t with _ | v
  · have ha : s.allocator % 2 ^ 32 = s.allocator :=
      Nat.mod_eq_of_lt (by omega)
    have ha1 : (s.allocator + 1) % 2 ^ 32 = s.allocator + 1 :=
      Nat.mod_eq_of_lt (by omega)
    have hg : getThreadId t s
        = (s.allocator,
           TidService.mk (s.allocator + 1)
             (fun x => if x = t then some s.allocator else s.cache x)) := by
      simp only [getThreadId, hc]
      simp only [ha, ha1]
    rw [hg]
    refine ⟨h1, ?_, ?_, ?_⟩
    · show 1 ≤ s.allocator + 1
      omega
    · show s.allocator + 1 ≤ n + 1
      omega
    · intro t' v' hv'
      have hv2 : (if t' = t then some s.allocator else s.cache t') = some v' := hv'
      show 1 ≤ v' ∧ v' < s.allocator + 1
      by_cases ht' : t' = t
      · rw [if_pos ht'] at hv2
        have := Option.some.inj hv2
        omega
      · rw [if_neg ht'] at hv2
        have := h3 t' v' hv2
        omega
  · have hg : getThreadId t s = (v, s) := by simp [getThreadId, hc]
    rw [hg]
    have hv := h3 t v hc
    show 1 ≤ v ∧ TidService.Inv (n + 1) s
    exact ⟨hv.1, h1, by omega, h3⟩

/-- Running any list of getThreadId calls preserves the invariant, growing
the bound by the number of calls. -/
theorem TidService.Inv.run (ts : List Nat) : ∀ (s : TidService) (n : Nat),
    TidService.Inv n s → n + ts.length < 2 ^ 32 →
    TidService.Inv (n + ts.length) (allocRun ts s) := by
  induction ts with
  | nil => intro s n h _; simpa using h
  | cons t ts ih =>
    intro s n h hn
    have hlen : (t :: ts).length = ts.length + 1 := rfl
    rw [hlen] at hn
    have hstep := TidService.Inv.step t h (by omega)
    have hrec := ih (getThreadId t s).2 (n + 1) hstep.2 (by omega)
    have harith : n + (t :: ts).length = n + 1 + ts.length := by
      rw [hlen]; omega
    rw [harith]
    exact hrec

/-- C9, counterexample: the queue variants' `thread_id_allocator_` is
initialised to 0, not 1 as the claim states for every variant; and a
fetch_add-style first identity request against that allocator (were one
ever made - the queue class has no getThreadId) would hand out identity 0. -/
theorem c9_queue_allocator_starts_at_zero :
    ReTLockQueueImpl.tidAllocatorInit = 0
    ∧ ReTLockQueueImpl.tidAllocatorInit ≠ 1
    ∧ (getThreadId 7
        (TidService.mk ReTLockQueueImpl.tidAllocatorInit fun _ => none)).1 = 0 :=
  ⟨rfl, by decide, rfl⟩

/-- C9, amended, for the split-line, same-line and no-opt variants (whose
allocators start at 1): a thread's first identity request returns the
allocator's value, advances the allocator by one (as a uint32) and caches
the returned identity; every request by an already-cached thread returns
the cached value and changes nothing; and after any prior sequence of
requests whose length stays within the operating envelope, the next
identity returned is never 0. -/
theorem c9_spin_tid_service :
    (∀ (s : TidService) (t : Nat), s.cache t = none →
      getThreadId t s
        = (s.allocator % 2 ^ 32,
           ⟨(s.allocator + 1) % 2 ^ 32,
            fun x => if x = t then some (s.allocator % 2 ^ 32) else s.cache x⟩))
    ∧ (∀ (s : TidService) (t v : Nat), s.cache t = some v →
      getThreadId t s = (v, s))
    ∧ (∀ (ts : List Nat) (t : Nat), ts.length + 1 < 2 ^ 32 - 1 →
      (getThreadId t (allocRun ts
          (TidService.mk ReTLockImpl.tidAllocatorInit fun _ => none))).1 ≠ 0) := by
  refine ⟨fun s t h => by simp [getThreadId, h], fun s t v h => by simp [getThreadId, h], ?_⟩
  intro ts t hts
  have hinv : TidService.Inv 1 (TidService.mk ReTLockImpl.tidAllocatorInit fun _ => none) :=
    ⟨le_refl 1, le_refl 1, fun t' v hv => by simp at hv⟩
  have hrun := TidService.Inv.run ts _ 1 hinv (by omega)
  have hstep := TidService.Inv.step t hrun (by omega)
  omega

/-- C9, witness for the amended theorem: on the never-used-before service of
a spin variant, thread 42's first identity request does not return 0 (it
returns 1). -/
theorem c9_spin_tid_service_witness :
    (getThreadId 42 (allocRun []
        (TidService.mk ReTLockImpl.tidAllocatorInit fun _ => none))).1 ≠ 0 :=
  c9_spin_tid_service.2.2 [] 42 (by decide)

end Retlock
